import Mathlib

/-! Shallow embedding of the RailReach client-side scripts:
`src/sw.js` (service worker: install / activate / fetch handlers over a
named cache store) and `src/assets/js/map-core.js` (the `getColor`
threshold function). The cache storage is modelled as an association
list of named caches, each cache an association list from request URL to
response; the network is a function returning `Option Response`
(`none` = the fetch promise rejected).
-/

namespace RailReach

/-- A response as stored in the cache or produced by the network. -/
structure Response where
  status : Nat
  body : String
deriving DecidableEq

/-- A request intercepted by the fetch handler: its full URL (the cache
key), its parsed hostname, and its destination. -/
structure Request where
  url : String
  hostname : String
  destination : String
deriving DecidableEq

/-- One named cache: ordered (URL, response) entries. -/
abbrev Cache := List (String × Response)

/-- The cache storage: ordered (name, cache) pairs. -/
abbrev CacheStorage := List (String × Cache)

/-- The constant CACHE_NAME from `sw.js`. -/
def CACHE_NAME : String := "railreach-v1"

/-- The constant PRECACHE list from `sw.js`. -/
def PRECACHE : List String :=
  ["/", "/assets/css/shared.css", "/assets/js/stations-data.js",
   "/assets/js/map-core.js", "/favicon.svg", "/manifest.json"]

/-- Hostname of the map-tile provider tested in the fetch handler. -/
def TILE_HOST : String := "tile.openstreetmap.org"

/-- JavaScript `String.prototype.includes`, on character lists: does
`sub` occur contiguously anywhere in the list? -/
def listIncludes (sub : List Char) : List Char → Bool
  | [] => sub.isEmpty
  | c :: rest => sub.isPrefixOf (c :: rest) || listIncludes sub rest

/-- JavaScript string inclusion, `s.includes(sub)`. -/
def jsIncludes (s sub : String) : Bool := listIncludes sub.data s.data

/-- Model of `cache.match(url)`: first entry whose key equals the URL. -/
def cacheMatchC : Cache → String → Option Response
  | [], _ => none
  | (v, x) :: rest, u => if v == u then some x else cacheMatchC rest u

/-- Model of `caches.match(url)`: search the caches in order. -/
def cachesMatch : CacheStorage → String → Option Response
  | [], _ => none
  | (_, c) :: rest, u =>
    match cacheMatchC c u with
    | some r => some r
    | none => cachesMatch rest u

/-- Model of `cache.put(url, resp)`: delete entries with that key,
append the new entry. -/
def cachePut (c : Cache) (u : String) (r : Response) : Cache :=
  c.filter (fun p => p.1 != u) ++ [(u, r)]

/-- Model of `caches.open(name)`: create the named cache if absent. -/
def openCache (s : CacheStorage) (name : String) : CacheStorage :=
  if s.any (fun p => p.1 == name) then s else s ++ [(name, ([] : Cache))]

/-- Model of opening the named cache and putting one entry into it. -/
def cachesPut (s : CacheStorage) (name u : String) (r : Response) :
    CacheStorage :=
  (openCache s name).map
    (fun p => if p.1 = name then (p.1, cachePut p.2 u r) else p)

/-- The fetch phase of `cache.addAll(urls)`: fetch every URL; any
failure fails the whole operation. -/
def addAllFetch (net : String → Option Response) :
    List String → Option (List (String × Response))
  | [] => some []
  | u :: rest =>
    match net u, addAllFetch net rest with
    | some r, some rs => some ((u, r) :: rs)
    | _, _ => none

/-- Put a list of fetched (URL, response) pairs into a cache, in order. -/
def putList : Cache → List (String × Response) → Cache
  | c, [] => c
  | c, (u, r) :: rest => putList (cachePut c u r) rest

/-- The install handler: `caches.open(CACHE_NAME).then(c =>
c.addAll(PRECACHE))`. `none` = the install event failed. -/
def install (net : String → Option Response) (s : CacheStorage) :
    Option CacheStorage :=
  match addAllFetch net PRECACHE with
  | none => none
  | some rs =>
    some ((openCache s CACHE_NAME).map
      (fun p => if p.1 = CACHE_NAME then (p.1, putList p.2 rs) else p))

/-- Cache cleanup of the activate handler: delete every cache whose name
is not `CACHE_NAME`. -/
def activate (s : CacheStorage) : CacheStorage :=
  s.filter (fun p => p.1 == CACHE_NAME)

/-- Result of the fetch handler: the response delivered to the page
(`none` = the failure propagates as a failed fetch), the cache storage
afterwards, and whether `fetch()` was called. -/
structure FetchResult where
  response : Option Response
  store : CacheStorage
  networkUsed : Bool
deriving DecidableEq

/-- Tile branch: cache-first; on a miss fetch, store a clone in the
named cache, return the network response. -/
def tileFetch (net : Request → Option Response) (s : CacheStorage)
    (r : Request) : FetchResult :=
  match cachesMatch s r.url with
  | some resp => ⟨some resp, s, false⟩
  | none =>
    match net r with
    | some resp => ⟨some resp, cachesPut s CACHE_NAME r.url resp, true⟩
    | none => ⟨none, s, true⟩

/-- Document branch: network-first; on failure fall back to the cached
URL, then to the cached root page. -/
def documentFetch (net : Request → Option Response) (s : CacheStorage)
    (r : Request) : FetchResult :=
  match net r with
  | some resp => ⟨some resp, s, true⟩
  | none =>
    match cachesMatch s r.url with
    | some resp => ⟨some resp, s, true⟩
    | none =>
      match cachesMatch s "/" with
      | some resp => ⟨some resp, s, true⟩
      | none => ⟨none, s, true⟩

/-- Asset branch: cache-first, no refill. -/
def assetFetch (net : Request → Option Response) (s : CacheStorage)
    (r : Request) : FetchResult :=
  match cachesMatch s r.url with
  | some resp => ⟨some resp, s, false⟩
  | none =>
    match net r with
    | some resp => ⟨some resp, s, true⟩
    | none => ⟨none, s, true⟩

/-- Dispatch logic of the fetch handler in `sw.js`. -/
def handleFetch (net : Request → Option Response) (s : CacheStorage)
    (r : Request) : FetchResult :=
  if jsIncludes r.hostname TILE_HOST then tileFetch net s r
  else if r.destination == "document" then documentFetch net s r
  else assetFetch net s r

/-- The function getColor from `map-core.js`, over exact rationals. -/
def getColor (mins : ℚ) : String :=
  if mins < 30 then "#22c55e"
  else if mins < 60 then "#f59e0b"
  else "#ef4444"

/-! Concrete data used by the witness theorems. -/

/-- A network that answers every precache URL with a 200 response. -/
def netOk : String → Option Response := fun u => some ⟨200, u⟩

/-- The storage produced by a successful install on `netOk`. -/
def precacheStore : CacheStorage :=
  [(CACHE_NAME, PRECACHE.map (fun u => (u, Response.mk 200 u)))]

/-- A network where every request fails. -/
def netNone : Request → Option Response := fun _ => none

/-- A network answering every request with a 200 response. -/
def netSome : Request → Option Response := fun _ => some ⟨200, "net"⟩

/-- A network answering every request with a 503 error response. -/
def netErr : Request → Option Response := fun _ => some ⟨503, "err"⟩

/-- A map-tile request. -/
def tileReq : Request :=
  ⟨"https://a.tile.openstreetmap.org/1/2/3.png",
   "a.tile.openstreetmap.org", "image"⟩

/-- A document request whose hostname merely contains the tile host as a
substring. -/
def evilReq : Request :=
  ⟨"https://tile.openstreetmap.org.example.com/x",
   "tile.openstreetmap.org.example.com", "document"⟩

/-- An ordinary document request. -/
def docReq : Request :=
  ⟨"https://railreach.example/about", "railreach.example", "document"⟩

/-- An ordinary asset (stylesheet) request. -/
def assetReq : Request :=
  ⟨"https://railreach.example/assets/css/shared.css",
   "railreach.example", "style"⟩

/-- A storage caching `docReq`. -/
def docStore : CacheStorage :=
  [(CACHE_NAME, [(docReq.url, ⟨200, "about"⟩)])]

/-- A storage caching `tileReq`. -/
def tileStore : CacheStorage :=
  [(CACHE_NAME, [(tileReq.url, ⟨200, "tile"⟩)])]

/-- A storage caching `evilReq`. -/
def evilStore : CacheStorage :=
  [(CACHE_NAME, [(evilReq.url, ⟨200, "cached"⟩)])]

/-- A storage caching `assetReq`. -/
def assetStore : CacheStorage :=
  [(CACHE_NAME, [(assetReq.url, ⟨200, "css"⟩)])]

/-! Helper lemmas about the cache model. -/

/-- The empty substring is included in every string. -/
theorem listIncludes_nil_left (l : List Char) : listIncludes [] l = true := by
  cases l <;> simp [listIncludes, List.isPrefixOf]

/-- A list is a Boolean prefix of itself followed by anything. -/
theorem isPrefixOf_self_append (l t : List Char) :
    l.isPrefixOf (l ++ t) = true := by
  induction l with
  | nil => simp [List.isPrefixOf]
  | cons c rest ih => simp [List.isPrefixOf, ih]

/-- Whenever `sub` occurs contiguously in a list, `listIncludes` finds
it. -/
theorem listIncludes_append (sub l₂ l₁ : List Char) :
    listIncludes sub (l₁ ++ (sub ++ l₂)) = true := by
  induction l₁ with
  | nil =>
    cases sub with
    | nil => simpa using listIncludes_nil_left l₂
    | cons c cs => simp [listIncludes, isPrefixOf_self_append]
  | cons c rest ih => simp [listIncludes, ih]

/-- After `cachePut c u r`, matching `u` yields exactly `r`. -/
theorem cacheMatchC_cachePut_self (c : Cache) (u : String) (r : Response) :
    cacheMatchC (cachePut c u r) u = some r := by
  induction c with
  | nil => simp [cacheMatchC, cachePut]
  | cons p rest ih =>
    rcases p with ⟨v, x⟩
    by_cases hv : v = u
    · simpa [cachePut, List.filter_cons, hv] using ih
    · simpa [cachePut, cacheMatchC, List.filter_cons, hv] using ih

/-- Unfolding equation for `cachesMatch` on a cons cell. -/
theorem cachesMatch_cons (m : String) (c : Cache) (rest : CacheStorage)
    (u : String) :
    cachesMatch ((m, c) :: rest) u =
      match cacheMatchC c u with
      | some x => some x
      | none => cachesMatch rest u := rfl

/-- Putting into every cache named `n` makes `u` match iff a cache named
`n` existed, provided `u` matched nowhere before. -/
theorem cachesMatch_map_put (s : CacheStorage) (n u : String) (r : Response)
    (h : cachesMatch s u = none) :
    cachesMatch
      (s.map (fun p => if p.1 = n then (p.1, cachePut p.2 u r) else p)) u =
      if s.any (fun p => p.1 == n) then some r else none := by
  induction s with
  | nil => simp [cachesMatch]
  | cons p rest ih =>
    rcases p with ⟨m, c⟩
    cases hm : cacheMatchC c u with
    | some x => simp [cachesMatch, hm] at h
    | none =>
      simp only [cachesMatch, hm] at h
      rw [List.map_cons]
      by_cases hn : m = n
      · have hhead :
            (if (m, c).1 = n then ((m, c).1, cachePut (m, c).2 u r)
              else (m, c)) = (m, cachePut c u r) := by simp [hn]
        rw [hhead, cachesMatch_cons, cacheMatchC_cachePut_self]
        simp [List.any_cons, hn]
      · have hhead :
            (if (m, c).1 = n then ((m, c).1, cachePut (m, c).2 u r)
              else (m, c)) = (m, c) := by simp [hn]
        rw [hhead, cachesMatch_cons, hm]
        have hbeq : (m == n) = false := beq_eq_false_iff_ne.mpr hn
        rw [List.any_cons] at *
        rw [ih h, hbeq, Bool.false_or]

/-- `cachesMatch` skips a block of caches in which `u` does not match. -/
theorem cachesMatch_append_none (a b : CacheStorage) (u : String)
    (h : cachesMatch a u = none) :
    cachesMatch (a ++ b) u = cachesMatch b u := by
  induction a with
  | nil => simp
  | cons p rest ih =>
    rcases p with ⟨m, c⟩
    cases hm : cacheMatchC c u with
    | some x => simp [cachesMatch, hm] at h
    | none =>
      simp only [cachesMatch, hm] at h
      simpa [cachesMatch, hm] using ih h

/-- After `cachesPut s n u r` on a storage where `u` matched nowhere,
`u` matches `r`. -/
theorem cachesMatch_cachesPut (s : CacheStorage) (n u : String)
    (r : Response) (h : cachesMatch s u = none) :
    cachesMatch (cachesPut s n u r) u = some r := by
  rw [cachesPut, openCache]
  by_cases hAny : s.any (fun p => p.1 == n)
  · rw [if_pos hAny, cachesMatch_map_put s n u r h, if_pos hAny]
  · rw [if_neg hAny, List.map_append,
      cachesMatch_append_none _ _ u
        (by rw [cachesMatch_map_put s n u r h, if_neg hAny])]
    rw [List.map_cons, List.map_nil]
    have hhead :
        (if (n, ([] : Cache)).1 = n
          then ((n, ([] : Cache)).1, cachePut (n, ([] : Cache)).2 u r)
          else (n, ([] : Cache))) = (n, cachePut [] u r) := by simp
    rw [hhead, cachesMatch_cons, cacheMatchC_cachePut_self]

/-- Claim C3: `getColor` maps every input below 30 to green, every input
in [30, 60) to amber and every input at or above 60 to red; the boundary
inputs 30 and 60 return amber and red respectively. -/
theorem getColor_thresholds (m : ℚ) :
    (m < 30 → getColor m = "#22c55e") ∧
    (30 ≤ m → m < 60 → getColor m = "#f59e0b") ∧
    (60 ≤ m → getColor m = "#ef4444") ∧
    getColor 30 = "#f59e0b" ∧ getColor 60 = "#ef4444" := by
  refine ⟨fun h => ?_, fun h1 h2 => ?_, fun h => ?_, ?_, ?_⟩
  · rw [getColor, if_pos h]
  · rw [getColor, if_neg (not_lt.mpr h1), if_pos h2]
  · rw [getColor, if_neg (not_lt.mpr (by linarith)),
      if_neg (not_lt.mpr h)]
  · rw [getColor, if_neg (by norm_num), if_pos (by norm_num)]
  · rw [getColor, if_neg (by norm_num), if_neg (by norm_num)]

/-- Witness for C3: concrete inputs in each band land on the documented
color. -/
theorem getColor_thresholds_witness :
    getColor 15 = "#22c55e" ∧ getColor 45 = "#f59e0b" ∧
      getColor 75 = "#ef4444" :=
  ⟨(getColor_thresholds 15).1 (by norm_num),
   (getColor_thresholds 45).2.1 (by norm_num) (by norm_num),
   (getColor_thresholds 75).2.2.1 (by norm_num)⟩

/-- Claim C4: after the activate cleanup, every remaining cache is named
`CACHE_NAME`, and every cache that was named `CACHE_NAME` remains. -/
theorem activate_purges_old_caches (s : CacheStorage) :
    (∀ p ∈ activate s, p.1 = CACHE_NAME) ∧
    (∀ p ∈ s, p.1 = CACHE_NAME → p ∈ activate s) := by
  constructor
  · intro p hp
    have := (List.mem_filter.mp hp).2
    simpa using this
  · intro p hp h
    exact List.mem_filter.mpr ⟨hp, by simpa using h⟩

/-- Witness for C4: the current-version cache survives activation of a
storage that also holds a stale cache. -/
theorem activate_purges_old_caches_witness :
    (CACHE_NAME, ([] : Cache)) ∈
      activate [("railreach-v0", ([] : Cache)), (CACHE_NAME, ([] : Cache))] :=
  (activate_purges_old_caches
      [("railreach-v0", ([] : Cache)), (CACHE_NAME, ([] : Cache))]).2
    (CACHE_NAME, ([] : Cache)) (by simp) rfl

/-- Unfolding a successful `addAllFetch` step. -/
theorem addAllFetch_cons_eq_some (net : String → Option Response)
    (u : String) (rest : List String) (rs : List (String × Response)) :
    addAllFetch net (u :: rest) = some rs ↔
      ∃ x rs', net u = some x ∧ addAllFetch net rest = some rs' ∧
        rs = (u, x) :: rs' := by
  cases h0 : net u <;> cases h1 : addAllFetch net rest <;>
    simp [addAllFetch, h0, h1, eq_comm]

/-- A successful fetch of the precache list pins down the six responses
and the order in which they are returned. -/
theorem addAllFetch_precache (net : String → Option Response)
    (rs : List (String × Response))
    (h : addAllFetch net PRECACHE = some rs) :
    ∃ r0 r1 r2 r3 r4 r5,
      net "/" = some r0 ∧ net "/assets/css/shared.css" = some r1 ∧
      net "/assets/js/stations-data.js" = some r2 ∧
      net "/assets/js/map-core.js" = some r3 ∧
      net "/favicon.svg" = some r4 ∧ net "/manifest.json" = some r5 ∧
      rs = [("/", r0), ("/assets/css/shared.css", r1),
            ("/assets/js/stations-data.js", r2),
            ("/assets/js/map-core.js", r3),
            ("/favicon.svg", r4), ("/manifest.json", r5)] := by
  simp only [PRECACHE] at h
  rw [addAllFetch_cons_eq_some] at h
  obtain ⟨r0, rs0, h0, h, rfl⟩ := h
  rw [addAllFetch_cons_eq_some] at h
  obtain ⟨r1, rs1, h1, h, rfl⟩ := h
  rw [addAllFetch_cons_eq_some] at h
  obtain ⟨r2, rs2, h2, h, rfl⟩ := h
  rw [addAllFetch_cons_eq_some] at h
  obtain ⟨r3, rs3, h3, h, rfl⟩ := h
  rw [addAllFetch_cons_eq_some] at h
  obtain ⟨r4, rs4, h4, h, rfl⟩ := h
  rw [addAllFetch_cons_eq_some] at h
  obtain ⟨r5, rs5, h5, h, rfl⟩ := h
  have h6 : rs5 = [] := by simpa [addAllFetch] using h
  subst h6
  exact ⟨r0, r1, r2, r3, r4, r5, h0, h1, h2, h3, h4, h5, rfl⟩

/-- Claim C5: a successful install on the empty storage yields exactly
one cache, the current-version cache, whose keys are exactly the six
precache URLs in order. -/
theorem install_empty_exact (net : String → Option Response)
    (s' : CacheStorage) (h : install net ([] : CacheStorage) = some s') :
    ∃ c, s' = [(CACHE_NAME, c)] ∧ c.map Prod.fst = PRECACHE := by
  cases hA : addAllFetch net PRECACHE with
  | none => simp [install, hA] at h
  | some rs =>
    obtain ⟨r0, r1, r2, r3, r4, r5, h0, h1, h2, h3, h4, h5, rfl⟩ :=
      addAllFetch_precache net rs hA
    have hput : putList ([] : Cache)
        [("/", r0), ("/assets/css/shared.css", r1),
         ("/assets/js/stations-data.js", r2),
         ("/assets/js/map-core.js", r3),
         ("/favicon.svg", r4), ("/manifest.json", r5)] =
        [("/", r0), ("/assets/css/shared.css", r1),
         ("/assets/js/stations-data.js", r2),
         ("/assets/js/map-core.js", r3),
         ("/favicon.svg", r4), ("/manifest.json", r5)] := by
      simp [putList, cachePut]
    simp only [install, hA, openCache, List.any_nil, List.nil_append,
      List.map_cons, List.map_nil, hput, Option.some.injEq] at h
    refine ⟨[("/", r0), ("/assets/css/shared.css", r1),
      ("/assets/js/stations-data.js", r2),
      ("/assets/js/map-core.js", r3),
      ("/favicon.svg", r4), ("/manifest.json", r5)], ?_, rfl⟩
    simpa using h.symm

/-- Witness for C5: install on a network answering every URL yields the
precache storage with exactly the precache keys. -/
theorem install_empty_exact_witness :
    ∃ c, precacheStore = [(CACHE_NAME, c)] ∧ c.map Prod.fst = PRECACHE :=
  install_empty_exact netOk precacheStore (by decide)

/-- Claim C6: installing a second time on the storage produced by a
first install reproduces that storage exactly. -/
theorem install_idempotent (net : String → Option Response)
    (s1 : CacheStorage) (h : install net ([] : CacheStorage) = some s1) :
    install net s1 = some s1 := by
  cases hA : addAllFetch net PRECACHE with
  | none => simp [install, hA] at h
  | some rs =>
    obtain ⟨r0, r1, r2, r3, r4, r5, h0, h1, h2, h3, h4, h5, rfl⟩ :=
      addAllFetch_precache net rs hA
    have hput : putList ([] : Cache)
        [("/", r0), ("/assets/css/shared.css", r1),
         ("/assets/js/stations-data.js", r2),
         ("/assets/js/map-core.js", r3),
         ("/favicon.svg", r4), ("/manifest.json", r5)] =
        [("/", r0), ("/assets/css/shared.css", r1),
         ("/assets/js/stations-data.js", r2),
         ("/assets/js/map-core.js", r3),
         ("/favicon.svg", r4), ("/manifest.json", r5)] := by
      simp [putList, cachePut]
    simp only [install, hA, openCache, List.any_nil, List.nil_append,
      List.map_cons, List.map_nil, hput, Option.some.injEq] at h
    have hs1 : s1 = [(CACHE_NAME,
        [("/", r0), ("/assets/css/shared.css", r1),
         ("/assets/js/stations-data.js", r2),
         ("/assets/js/map-core.js", r3),
         ("/favicon.svg", r4), ("/manifest.json", r5)])] := by
      simpa using h.symm
    subst hs1
    simp [install, hA, openCache, CACHE_NAME, putList, cachePut]

/-- Witness for C6: a second install on the installed storage returns
it unchanged. -/
theorem install_idempotent_witness :
    install netOk precacheStore = some precacheStore :=
  install_idempotent netOk precacheStore (by decide)

/-- Claim C1: for a non-tile document request the handler goes to
the network first (the network is consulted and its success is
returned); on network failure it returns the cached entry for that
exact URL if present, and otherwise the cached root page. -/
theorem document_network_first (net : Request → Option Response)
    (s : CacheStorage) (r : Request)
    (hTile : jsIncludes r.hostname TILE_HOST = false)
    (hDoc : r.destination = "document") :
    (∀ resp, net r = some resp →
        handleFetch net s r = ⟨some resp, s, true⟩) ∧
    (net r = none → ∀ resp, cachesMatch s r.url = some resp →
        handleFetch net s r = ⟨some resp, s, true⟩) ∧
    (net r = none → cachesMatch s r.url = none →
        ∀ resp, cachesMatch s "/" = some resp →
          handleFetch net s r = ⟨some resp, s, true⟩) := by
  refine ⟨fun resp hn => ?_, fun hn resp hc => ?_,
    fun hn hc resp hroot => ?_⟩
  · simp [handleFetch, hTile, hDoc, documentFetch, hn]
  · simp [handleFetch, hTile, hDoc, documentFetch, hn, hc]
  · simp [handleFetch, hTile, hDoc, documentFetch, hn, hc, hroot]

/-- Witness for C1: a failed document fetch with the URL cached returns
the cached copy. -/
theorem document_network_first_witness :
    handleFetch netNone docStore docReq =
      ⟨some ⟨200, "about"⟩, docStore, true⟩ :=
  (document_network_first netNone docStore docReq (by decide) rfl).2.1 rfl
    ⟨200, "about"⟩ (by decide)

/-- Claim C2: for a tile request, a cache hit is returned with no
network call; on a miss the network response is returned, and a copy is
stored in the named cache (so it matches afterwards). -/
theorem tile_cache_first_refill (net : Request → Option Response)
    (s : CacheStorage) (r : Request)
    (hTile : jsIncludes r.hostname TILE_HOST = true) :
    (∀ resp, cachesMatch s r.url = some resp →
        handleFetch net s r = ⟨some resp, s, false⟩) ∧
    (cachesMatch s r.url = none → ∀ resp, net r = some resp →
        handleFetch net s r =
          ⟨some resp, cachesPut s CACHE_NAME r.url resp, true⟩ ∧
        cachesMatch (cachesPut s CACHE_NAME r.url resp) r.url = some resp) := by
  refine ⟨fun resp hc => ?_, fun hc resp hn =>
    ⟨?_, cachesMatch_cachesPut s CACHE_NAME r.url resp hc⟩⟩
  · simp [handleFetch, hTile, tileFetch, hc]
  · simp [handleFetch, hTile, tileFetch, hc, hn]

/-- Witness for C2: a cached tile request is served from the cache with
no network call even though the network is available. -/
theorem tile_cache_first_refill_witness :
    handleFetch netSome tileStore tileReq =
      ⟨some ⟨200, "tile"⟩, tileStore, false⟩ :=
  (tile_cache_first_refill netSome tileStore tileReq (by decide)).1
    ⟨200, "tile"⟩ (by decide)

/-- Claim C7: a document request whose network fetch fails, with neither
the URL nor the root page cached, propagates the failure. -/
theorem document_failure_propagates (net : Request → Option Response)
    (s : CacheStorage) (r : Request)
    (hTile : jsIncludes r.hostname TILE_HOST = false)
    (hDoc : r.destination = "document") (hNet : net r = none)
    (hUrl : cachesMatch s r.url = none)
    (hRoot : cachesMatch s "/" = none) :
    handleFetch net s r = ⟨none, s, true⟩ := by
  simp [handleFetch, hTile, hDoc, documentFetch, hNet, hUrl, hRoot]

/-- Witness for C7: with an empty cache and a dead network, a document
request yields a propagated failure. -/
theorem document_failure_propagates_witness :
    handleFetch netNone ([] : CacheStorage) docReq =
      ⟨none, ([] : CacheStorage), true⟩ :=
  document_failure_propagates netNone [] docReq (by decide) rfl rfl rfl rfl

/-- Claim C8: for a request that is neither a tile request nor a
document, the cached copy is served when present, otherwise the network
result is returned; the cache contents are never changed. -/
theorem asset_cache_first_no_refill (net : Request → Option Response)
    (s : CacheStorage) (r : Request)
    (hTile : jsIncludes r.hostname TILE_HOST = false)
    (hDoc : r.destination ≠ "document") :
    (handleFetch net s r).store = s ∧
    (∀ resp, cachesMatch s r.url = some resp →
        handleFetch net s r = ⟨some resp, s, false⟩) ∧
    (cachesMatch s r.url = none →
        handleFetch net s r = ⟨net r, s, true⟩) := by
  have hD : (r.destination == "document") = false :=
    beq_eq_false_iff_ne.mpr hDoc
  refine ⟨?_, fun resp hc => ?_, fun hc => ?_⟩
  · cases hm : cachesMatch s r.url <;> cases hn : net r <;>
      simp [handleFetch, hTile, hD, assetFetch, hm, hn]
  · simp [handleFetch, hTile, hD, assetFetch, hc]
  · cases hn : net r <;>
      simp [handleFetch, hTile, hD, assetFetch, hc, hn]

/-- Witness for C8: a cached stylesheet is served with no network call
and the store is untouched. -/
theorem asset_cache_first_no_refill_witness :
    handleFetch netNone assetStore assetReq =
      ⟨some ⟨200, "css"⟩, assetStore, false⟩ :=
  (asset_cache_first_no_refill netNone assetStore assetReq (by decide)
      (by decide)).2.1 ⟨200, "css"⟩ (by decide)

/-- Claim C9: any request whose hostname contains the tile-provider
string anywhere as a substring is dispatched to the tile branch,
whatever its destination; in particular a cache hit is served with no
network call. -/
theorem tile_dispatch_by_substring (net : Request → Option Response)
    (s : CacheStorage) (r : Request)
    (hInf : ∃ l₁ l₂ : List Char,
        r.hostname.data = l₁ ++ (TILE_HOST.data ++ l₂)) :
    handleFetch net s r = tileFetch net s r ∧
    (∀ resp, cachesMatch s r.url = some resp →
        handleFetch net s r = ⟨some resp, s, false⟩) := by
  obtain ⟨l₁, l₂, hl⟩ := hInf
  have hT : jsIncludes r.hostname TILE_HOST = true := by
    rw [jsIncludes, hl]; exact listIncludes_append _ _ _
  refine ⟨by simp [handleFetch, hT], fun resp hc => ?_⟩
  simp [handleFetch, hT, tileFetch, hc]

/-- Witness for C9: a document request to
`tile.openstreetmap.org.example.com` is handled by the tile branch and
served from cache without a network call. -/
theorem tile_dispatch_by_substring_witness :
    handleFetch netSome evilStore evilReq =
      ⟨some ⟨200, "cached"⟩, evilStore, false⟩ :=
  (tile_dispatch_by_substring netSome evilStore evilReq
      ⟨[], ".example.com".data, by decide⟩).2 ⟨200, "cached"⟩ (by decide)

/-- Claim C10: on a tile cache miss the network response is stored
unconditionally, whatever its status, and an identical follow-up
request is served that stored response with no network call. -/
theorem tile_refill_stores_any_response (net : Request → Option Response)
    (s : CacheStorage) (r : Request) (resp : Response)
    (hTile : jsIncludes r.hostname TILE_HOST = true)
    (hMiss : cachesMatch s r.url = none) (hNet : net r = some resp) :
    handleFetch net s r =
      ⟨some resp, cachesPut s CACHE_NAME r.url resp, true⟩ ∧
    handleFetch net (cachesPut s CACHE_NAME r.url resp) r =
      ⟨some resp, cachesPut s CACHE_NAME r.url resp, false⟩ := by
  have hhit := cachesMatch_cachesPut s CACHE_NAME r.url resp hMiss
  constructor
  · simp [handleFetch, hTile, tileFetch, hMiss, hNet]
  · simp [handleFetch, hTile, tileFetch, hhit]

/-- Witness for C10: a 503 error tile response is cached and replayed
without a network call. -/
theorem tile_refill_stores_any_response_witness :
    handleFetch netErr ([] : CacheStorage) tileReq =
      ⟨some ⟨503, "err"⟩, cachesPut [] CACHE_NAME tileReq.url ⟨503, "err"⟩,
        true⟩ ∧
    handleFetch netErr (cachesPut [] CACHE_NAME tileReq.url ⟨503, "err"⟩)
        tileReq =
      ⟨some ⟨503, "err"⟩, cachesPut [] CACHE_NAME tileReq.url ⟨503, "err"⟩,
        false⟩ :=
  tile_refill_stores_any_response netErr [] tileReq ⟨503, "err"⟩
    (by decide) rfl rfl

end RailReach
